import Mathlib

/-!
Verification of the borg-ui filesystem-usage probe specification.

The repository ships the unit tests (`tests/unit/test_storage_usage.py`) and
the schema migration (`app/database/migrations/032_add_storage_usage_fields.py`).
The probe itself (`app.api.repositories.get_filesystem_usage` and
`format_bytes`) is not among the provided sources, so it is modelled here from
the specification, with the in-repository unit tests as the authority on
behaviour whenever the two disagree.
-/

/-- Splits a character list into groups separated by characters satisfying `p`
(the separators are dropped).  Used to model Python `str.split()` behaviour. -/
def splitOnPred (p : Char → Bool) : List Char → List (List Char)
  | [] => [[]]
  | c :: cs =>
    match splitOnPred p cs with
    | [] => if p c then [[], []] else [[c]]
    | g :: gs => if p c then [] :: g :: gs else (c :: g) :: gs

/-- Whitespace-separated tokens of a string (empty tokens dropped), the model
of Python `str.split()` with no argument. -/
def tokens (s : String) : List String :=
  ((splitOnPred (fun c => c.isWhitespace) s.toList).filter
    (fun t => t ≠ [])).map (fun t => String.mk t)

/-- Lines of a string, split on the newline character. -/
def linesOf (s : String) : List String :=
  (splitOnPred (fun c => c = '\n') s.toList).map (fun l => String.mk l)

/-- Lines that contain at least one non-whitespace character. -/
def nonEmptyLines (s : String) : List String :=
  (linesOf s).filter (fun l => tokens l ≠ [])

/-- Modelled from the spec: data-line extraction of the remote `df`-style
output parser of `get_filesystem_usage` (the probe source being absent from
the provided files).  The first non-empty line is treated as the header and
discarded when at least two non-empty lines are present — the repository's
unit test `test_get_filesystem_usage_ssh_repo` feeds a single data line with
no header and expects a successful parse, so the discard cannot be
unconditional.  A data line carrying fewer than 6 whitespace-separated tokens
(a wrapped filesystem name) is merged with the following line. -/
def parsedLines : List String → List String
  | [] => []
  | [l] => tokens l
  | _ :: l :: more =>
    if (tokens l).length < 6 then
      match more with
      | [] => tokens l
      | l2 :: _ => tokens (l ++ " " ++ l2)
    else tokens l

/-- Parsed fields of the remote command output: non-empty lines fed to
`parsedLines`. -/
def parsedFields (out : String) : List String :=
  parsedLines (nonEmptyLines out)

/-- Modelled from the spec: a strictly literal reading of parsing step 1
("Discard the header line"), which always drops the first non-empty line even
when it is the only line.  Kept separate from `parsedLines` to exhibit where
that literal reading diverges from the behaviour fixed by the unit tests. -/
def parsedLinesHeaderAlways : List String → List String
  | [] => []
  | _ :: rest =>
    match rest with
    | [] => []
    | l :: more =>
      if (tokens l).length < 6 then
        match more with
        | [] => tokens l
        | l2 :: _ => tokens (l ++ " " ++ l2)
      else tokens l

/-- Decimal-digit parse of a string into a natural number; `none` unless the
string is non-empty and all digits.  Models `int(token)` on `df` fields. -/
def parseDecimalNat (s : String) : Option Nat :=
  if s.toList ≠ [] ∧ s.toList.all (fun c => c.isDigit) then
    some (s.toList.foldl (fun n c => n * 10 + (c.toNat - 48)) 0)
  else none

/-- Drops every trailing percent sign, the model of `rstrip` with a percent
argument on the use-percent token. -/
def stripTrailingPercent (s : String) : String :=
  String.mk ((s.toList.reverse.dropWhile (fun c => c = '%')).reverse)

/-- Modelled from the spec: the use-percent token with its trailing percent
sign stripped, converted to a (non-negative decimal) rational, the model of
the float conversion. -/
def parsePercent (s : String) : Option ℚ :=
  match splitOnPred (fun c => c = '.') (stripTrailingPercent s).toList with
  | [i] => (parseDecimalNat (String.mk i)).map (fun n => (n : ℚ))
  | [i, f] =>
    match parseDecimalNat (String.mk i), parseDecimalNat (String.mk f) with
    | some a, some b => some ((a : ℚ) + (b : ℚ) / ((10 : ℚ) ^ f.length))
    | _, _ => none
  | _ => none

/-- Usage result produced by the probe, mirroring the dictionary the unit
tests inspect (`total`, `used`, `available`, `percent_used`, `filesystem`,
`mount_point`). -/
structure UsageResult where
  total : Nat
  used : Nat
  available : Nat
  percent_used : ℚ
  filesystem : String
  mount_point : String
deriving DecidableEq

/-- Volume statistics returned by the local statistics collaborator
(`shutil.disk_usage`). -/
structure DiskStats where
  total : Nat
  used : Nat
  free : Nat
deriving DecidableEq

/-- Outcome of the remote command channel: a timeout, or completion with an
exit code and captured standard output. -/
inductive RemoteOutcome where
  | timeout
  | completed (exitCode : Nat) (stdout : String)
deriving DecidableEq

/-- Repository descriptor, restricted to the fields the probe consults
(`repository_type`, `path`, `host`, `port`, `username`, `ssh_key_id`). -/
structure Repository where
  path : String
  repository_type : String
  host : Option String
  port : Option Nat
  username : Option String
  ssh_key_id : Option Nat
deriving DecidableEq

/-- Observable external calls made by the probe: a local volume-statistics
query or a remote command execution. -/
inductive CallEvent where
  | diskUsage (path : String)
  | remoteExec (host : String) (port : Nat) (username : String) (path : String)
deriving DecidableEq

/-- Injected collaborators of the probe: local volume statistics (`none`
models the platform call raising), the credential store (`none` models a
missing key or failed decryption), and the remote command channel. -/
structure Env where
  disk_usage : String → Option DiskStats
  resolveKey : Nat → Option String
  remoteExec : String → Nat → String → String → String → RemoteOutcome

/-- Modelled from the spec: full parse of the remote command output into a
usage result — exactly 6 fields, three numeric KB fields multiplied by 1024,
the use-percent token converted to a rational; `none` on any failure. -/
def parseDfOutput (out : String) : Option UsageResult :=
  match parsedFields out with
  | [fs, t, u, a, p, m] =>
    match parseDecimalNat t, parseDecimalNat u, parseDecimalNat a, parsePercent p with
    | some tn, some un, some an, some pr =>
      some ⟨tn * 1024, un * 1024, an * 1024, pr, fs, m⟩
    | _, _, _, _ => none
  | _ => none

/-- Full parse built on the strictly literal header-discard step, for
comparison with `parseDfOutput`. -/
def parseDfOutputHeaderAlways (out : String) : Option UsageResult :=
  match parsedLinesHeaderAlways (nonEmptyLines out) with
  | [fs, t, u, a, p, m] =>
    match parseDecimalNat t, parseDecimalNat u, parseDecimalNat a, parsePercent p with
    | some tn, some un, some an, some pr =>
      some ⟨tn * 1024, un * 1024, an * 1024, pr, fs, m⟩
    | _, _, _, _ => none
  | _ => none

/-- Characters of a path before the first archive delimiter (two adjacent
colons). -/
def takeUntilDoubleColon : List Char → List Char
  | [] => []
  | c :: cs =>
    if c = ':' ∧ cs.head? = some ':' then []
    else c :: takeUntilDoubleColon cs

/-- Modelled from the spec: path normalization of the local probe — truncate
at the archive-suffix delimiter before querying. -/
def normalizePath (p : String) : String :=
  String.mk (takeUntilDoubleColon p.toList)

/-- Whether a character list contains two adjacent colons. -/
def containsDoubleColon : List Char → Bool
  | [] => false
  | c :: cs =>
    if c = ':' ∧ cs.head? = some ':' then true else containsDoubleColon cs

/-- Whether a path contains the archive-suffix delimiter. -/
def hasArchiveDelimiter (p : String) : Bool :=
  containsDoubleColon p.toList

/-- Modelled from the spec: the local probe.  Queries the volume statistics
collaborator on the normalized path; a failing call (modelled by `none`)
yields the absent result. -/
def localUsage (env : Env) (path : String) : Option UsageResult × List CallEvent :=
  let p := normalizePath path
  match env.disk_usage p with
  | none => (none, [CallEvent.diskUsage p])
  | some st =>
    (some ⟨st.total, st.used, st.free, (st.used : ℚ) / (st.total : ℚ) * 100,
           "local", p⟩,
     [CallEvent.diskUsage p])

/-- Modelled from the spec: the remote probe.  Host, username and the
credential reference must be present and the reference must resolve, else
absent with no remote call; then one remote command execution whose timeout,
non-zero exit, or unparsable output each yield absent. -/
def sshUsage (env : Env) (repo : Repository) : Option UsageResult × List CallEvent :=
  match repo.host, repo.username, repo.ssh_key_id with
  | some host, some user, some kid =>
    match env.resolveKey kid with
    | none => (none, [])
    | some key =>
      let port := repo.port.getD 22
      let ev := [CallEvent.remoteExec host port user repo.path]
      match env.remoteExec host port user key repo.path with
      | RemoteOutcome.timeout => (none, ev)
      | RemoteOutcome.completed code out =>
        if code = 0 then
          match parseDfOutput out with
          | some r => (some r, ev)
          | none => (none, ev)
        else (none, ev)
  | _, _, _ => (none, [])

/-- Modelled from the spec: `get_filesystem_usage`, the probe dispatcher —
local and ssh repository kinds are dispatched, any other kind yields the
absent result with no external call. -/
def get_filesystem_usage (env : Env) (repo : Repository) :
    Option UsageResult × List CallEvent :=
  if repo.repository_type = "local" then localUsage env repo.path
  else if repo.repository_type = "ssh" then sshUsage env repo
  else (none, [])

/-- Modelled from the spec: the ordered unit sequence of the byte formatter. -/
def storageUnits : List String := ["B", "KB", "MB", "GB", "TB", "PB"]

/-- Modelled from the spec: the unit index reached by the formatter's
divide-while-at-least-1024 loop, capped by the exhaustion of the unit list. -/
def unitIndex (b : Nat) : Nat :=
  if b < 1024 then 0
  else if b < 1024 ^ 2 then 1
  else if b < 1024 ^ 3 then 2
  else if b < 1024 ^ 4 then 3
  else if b < 1024 ^ 5 then 4
  else 5

/-- Round-to-nearest with ties to even of the fraction `n / d`, the rounding
applied by two-decimal fixed-point rendering. -/
def roundHalfEven (n d : Nat) : Nat :=
  if 2 * (n % d) < d then n / d
  else if d < 2 * (n % d) then n / d + 1
  else if (n / d) % 2 = 0 then n / d else n / d + 1

/-- The formatter's scaled value in hundredths, after rounding to two decimal
places. -/
def numericHundredths (b : Nat) : Nat :=
  roundHalfEven (100 * b) (1024 ^ unitIndex b)

/-- Two-digit zero-padded rendering of a number below 100. -/
def pad2 (n : Nat) : String :=
  if n < 10 then "0" ++ toString n else toString n

/-- Fixed-point rendering of a value given in hundredths, with exactly two
decimal digits. -/
def renderHundredths (h : Nat) : String :=
  toString (h / 100) ++ "." ++ pad2 (h % 100)

/-- The unit suffix the formatter selects for a byte count. -/
def unitName (b : Nat) : String :=
  storageUnits.getD (unitIndex b) "PB"

/-- Modelled from the spec: `format_bytes` — scaled value with exactly two
decimal digits, a single space, then the unit suffix. -/
def format_bytes (b : Nat) : String :=
  renderHundredths (numericHundredths b) ++ " " ++ unitName b

/-- One `ALTER TABLE ... ADD COLUMN` statement: target table, column name,
column type. -/
structure SqlAlter where
  table : String
  column : String
  colType : String
deriving DecidableEq

/-- The five SQL statements executed by `upgrade` in migration 032, as written
in `app/database/migrations/032_add_storage_usage_fields.py`. -/
def migration032Sql : List String :=
  ["\n            ALTER TABLE repositories\n            ADD COLUMN storage_total BIGINT\n        ",
   "\n            ALTER TABLE repositories\n            ADD COLUMN storage_used BIGINT\n        ",
   "\n            ALTER TABLE repositories\n            ADD COLUMN storage_available BIGINT\n        ",
   "\n            ALTER TABLE repositories\n            ADD COLUMN storage_percent_used REAL\n        ",
   "\n            ALTER TABLE repositories\n            ADD COLUMN last_storage_check TIMESTAMP\n        "]

/-- Reads an `ALTER TABLE t ADD COLUMN c ty` statement from its
whitespace-separated tokens. -/
def parseAlterAddColumn (sql : String) : Option SqlAlter :=
  match tokens sql with
  | ["ALTER", "TABLE", t, "ADD", "COLUMN", c, ty] => some ⟨t, c, ty⟩
  | _ => none

/-- The column-addition statements of migration 032, in execution order. -/
def migration032Statements : List SqlAlter :=
  migration032Sql.filterMap parseAlterAddColumn

/-- Database connection state: the committed schema (columns durably added)
and the columns added inside the open transaction. -/
structure Db where
  schema : List SqlAlter
  pending : List SqlAlter
deriving DecidableEq

/-- One `db.execute` of a column addition: the statement either raises (when
the oracle says so), leaving the state at the point of failure in the error,
or appends the column to the open transaction. -/
def execStmt (oracle : SqlAlter → Bool) (db : Db) (s : SqlAlter) : Except Db Db :=
  if oracle s then Except.error db
  else Except.ok { db with pending := db.pending ++ [s] }

/-- Executes statements in order, stopping at the first one that raises. -/
def runStmts (oracle : SqlAlter → Bool) : List SqlAlter → Db → Except Db Db
  | [], db => Except.ok db
  | s :: rest, db =>
    match execStmt oracle db s with
    | Except.error e => Except.error e
    | Except.ok db2 => runStmts oracle rest db2

/-- Makes the open transaction durable (`db.commit`). -/
def commitDb (db : Db) : Db :=
  { schema := db.schema ++ db.pending, pending := [] }

/-- Discards the open transaction (`db.rollback`). -/
def rollbackDb (db : Db) : Db :=
  { db with pending := [] }

/-- Migration 032's `upgrade`, embedded from the source: a try block running
the five ALTER TABLE statements then `commit`; on any exception, `rollback`
and re-raise.  Returns the final connection state and whether an exception
escaped (`true` models the re-raise). -/
def upgrade (oracle : SqlAlter → Bool) (db : Db) : Db × Bool :=
  match runStmts oracle migration032Statements db with
  | Except.ok db2 => (commitDb db2, false)
  | Except.error e => (rollbackDb e, true)

/-- Environment whose collaborators all fail: no disk statistics, no
credential, remote calls time out. -/
def envAllFail : Env :=
  { disk_usage := fun _ => none
    resolveKey := fun _ => none
    remoteExec := fun _ _ _ _ _ => RemoteOutcome.timeout }

/-- The `df`-style output of the successful remote scenario, preceded by a
header line. -/
def dfSampleOutput : String :=
  "Filesystem 1K-blocks Used Available Use% Mounted on\n/dev/sda1 976762584 400000000 576762584 42% /backup\n"

/-- Environment of the successful remote scenario: the credential resolves
and the remote command succeeds with the sample output. -/
def envSshOk : Env :=
  { disk_usage := fun _ => none
    resolveKey := fun _ => some "KEY"
    remoteExec := fun _ _ _ _ _ => RemoteOutcome.completed 0 dfSampleOutput }

/-- Environment of the successful local scenario: the volume statistics call
reports total 1e12, used 4e11, free 6e11. -/
def envLocalOk : Env :=
  { disk_usage := fun _ => some ⟨1000000000000, 400000000000, 600000000000⟩
    resolveKey := fun _ => none
    remoteExec := fun _ _ _ _ _ => RemoteOutcome.timeout }

/-- The SSH repository descriptor of the successful remote scenario. -/
def sshRepo : Repository :=
  { path := "user@host:/backup/repo"
    repository_type := "ssh"
    host := some "test.example.com"
    port := some 22
    username := some "testuser"
    ssh_key_id := some 1 }

/-- An SSH repository descriptor missing host, username and credential
reference. -/
def sshRepoIncomplete : Repository :=
  { path := "user@host:/backup"
    repository_type := "ssh"
    host := none
    port := none
    username := none
    ssh_key_id := none }

/-- A repository descriptor of an unrecognized kind. -/
def unknownRepo : Repository :=
  { path := "/test/repo"
    repository_type := "unknown"
    host := none
    port := none
    username := none
    ssh_key_id := none }

/-- A local repository descriptor whose path carries an archive suffix. -/
def localArchiveRepo : Repository :=
  { path := "/backup/repo::archive-name"
    repository_type := "local"
    host := none
    port := none
    username := none
    ssh_key_id := none }

/-- The local repository descriptor of the successful local scenario. -/
def localRepo : Repository :=
  { path := "/tmp/test-repo"
    repository_type := "local"
    host := none
    port := none
    username := none
    ssh_key_id := none }

/-- Helper: an output whose parsed field list does not have exactly 6 entries
fails to parse. -/
theorem parseDfOutput_wrong_arity (out : String)
    (h : (parsedFields out).length ≠ 6) : parseDfOutput out = none := by
  rcases hf : parsedFields out with
    _ | ⟨a, _ | ⟨b, _ | ⟨c, _ | ⟨d, _ | ⟨e, _ | ⟨f, _ | ⟨g, rest⟩⟩⟩⟩⟩⟩⟩ <;>
    simp_all [parseDfOutput]

/-- C1: the probe is a total function into an optional usage result — every
internal failure surfaces as the absent value, never as an exception — and a
descriptor of unrecognized kind yields absent with no external call; a local
descriptor whose volume-statistics call fails also yields absent. -/
theorem probe_never_raises (env : Env) (repo : Repository) :
    ((get_filesystem_usage env repo).1 = none ∨
      ∃ r, (get_filesystem_usage env repo).1 = some r) ∧
    (repo.repository_type ≠ "local" → repo.repository_type ≠ "ssh" →
      get_filesystem_usage env repo = (none, [])) ∧
    (repo.repository_type = "local" →
      env.disk_usage (normalizePath repo.path) = none →
      (get_filesystem_usage env repo).1 = none) := by
  refine ⟨?_, ?_, ?_⟩
  · cases h : (get_filesystem_usage env repo).1 with
    | none => exact Or.inl rfl
    | some r => exact Or.inr ⟨r, rfl⟩
  · intro h1 h2
    simp [get_filesystem_usage, h1, h2]
  · intro h1 h2
    simp [get_filesystem_usage, h1, localUsage, h2]

/-- Witness for C1 at the unrecognized-kind descriptor of the unit tests. -/
theorem probe_never_raises_witness :
    get_filesystem_usage envAllFail unknownRepo = (none, []) :=
  (probe_never_raises envAllFail unknownRepo).2.1 (by decide) (by decide)

/-- C3: the remote probe yields absent when host, username or the credential
reference is missing, when the reference does not resolve, when the remote
command times out, exits non-zero, or its output parses to fewer than 6
fields; in the missing-field and missing-credential cases the call trace is
empty, so no remote call is attempted. -/
theorem probe_ssh_absent (env : Env) (repo : Repository)
    (ht : repo.repository_type = "ssh") :
    (repo.host = none → get_filesystem_usage env repo = (none, [])) ∧
    (repo.username = none → get_filesystem_usage env repo = (none, [])) ∧
    (repo.ssh_key_id = none → get_filesystem_usage env repo = (none, [])) ∧
    (∀ k, repo.ssh_key_id = some k → env.resolveKey k = none →
      get_filesystem_usage env repo = (none, [])) ∧
    (∀ h u k key, repo.host = some h → repo.username = some u →
      repo.ssh_key_id = some k → env.resolveKey k = some key →
      env.remoteExec h (repo.port.getD 22) u key repo.path =
        RemoteOutcome.timeout →
      (get_filesystem_usage env repo).1 = none) ∧
    (∀ h u k key c out, repo.host = some h → repo.username = some u →
      repo.ssh_key_id = some k → env.resolveKey k = some key →
      env.remoteExec h (repo.port.getD 22) u key repo.path =
        RemoteOutcome.completed c out →
      c ≠ 0 → (get_filesystem_usage env repo).1 = none) ∧
    (∀ h u k key out, repo.host = some h → repo.username = some u →
      repo.ssh_key_id = some k → env.resolveKey k = some key →
      env.remoteExec h (repo.port.getD 22) u key repo.path =
        RemoteOutcome.completed 0 out →
      (parsedFields out).length < 6 →
      (get_filesystem_usage env repo).1 = none) := by
  refine ⟨?_, ?_, ?_, ?_, ?_, ?_, ?_⟩
  · intro hh
    cases hu : repo.username <;> cases hk : repo.ssh_key_id <;>
      simp [get_filesystem_usage, ht, sshUsage, hh, hu, hk]
  · intro hu
    cases hh : repo.host <;> cases hk : repo.ssh_key_id <;>
      simp [get_filesystem_usage, ht, sshUsage, hh, hu, hk]
  · intro hk
    cases hh : repo.host <;> cases hu : repo.username <;>
      simp [get_filesystem_usage, ht, sshUsage, hh, hu, hk]
  · intro k hk hres
    cases hh : repo.host <;> cases hu : repo.username <;>
      simp [get_filesystem_usage, ht, sshUsage, hh, hu, hk, hres]
  · intro h u k key hh hu hk hres hexec
    simp [get_filesystem_usage, ht, sshUsage, hh, hu, hk, hres, hexec]
  · intro h u k key c out hh hu hk hres hexec hc
    simp [get_filesystem_usage, ht, sshUsage, hh, hu, hk, hres, hexec, hc]
  · intro h u k key out hh hu hk hres hexec hlen
    have hparse : parseDfOutput out = none :=
      parseDfOutput_wrong_arity out (by omega)
    simp [get_filesystem_usage, ht, sshUsage, hh, hu, hk, hres, hexec, hparse]

/-- Witness for C3 at the connection-field-free SSH descriptor of the unit
tests. -/
theorem probe_ssh_absent_witness :
    get_filesystem_usage envAllFail sshRepoIncomplete = (none, []) :=
  (probe_ssh_absent envAllFail sshRepoIncomplete rfl).1 rfl

/-- Helper: a head the truncation keeps is a head the original list has. -/
theorem head?_takeUntilDoubleColon (l : List Char) (c : Char)
    (h : (takeUntilDoubleColon l).head? = some c) : l.head? = some c := by
  cases l with
  | nil => simp [takeUntilDoubleColon] at h
  | cons d ds =>
    by_cases hc : d = ':' ∧ ds.head? = some ':'
    · simp only [takeUntilDoubleColon] at h
      rw [if_pos hc] at h
      simp at h
    · simp only [takeUntilDoubleColon] at h
      rw [if_neg hc] at h
      simpa using h

/-- Helper: the truncation at the first archive delimiter is delimiter-free. -/
theorem containsDoubleColon_takeUntil (l : List Char) :
    containsDoubleColon (takeUntilDoubleColon l) = false := by
  induction l with
  | nil => simp [takeUntilDoubleColon, containsDoubleColon]
  | cons d ds ih =>
    by_cases hc : d = ':' ∧ ds.head? = some ':'
    · simp only [takeUntilDoubleColon]
      rw [if_pos hc]
      simp [containsDoubleColon]
    · simp only [takeUntilDoubleColon]
      rw [if_neg hc]
      simp only [containsDoubleColon]
      have hc2 : ¬ (d = ':' ∧ (takeUntilDoubleColon ds).head? = some ':') := by
        rintro ⟨h1, h2⟩
        exact hc ⟨h1, head?_takeUntilDoubleColon ds ':' h2⟩
      rw [if_neg hc2]
      exact ih

/-- Helper: truncation leaves a delimiter-free list unchanged. -/
theorem takeUntil_eq_self (l : List Char)
    (h : containsDoubleColon l = false) : takeUntilDoubleColon l = l := by
  induction l with
  | nil => rfl
  | cons d ds ih =>
    simp only [containsDoubleColon] at h
    by_cases hc : d = ':' ∧ ds.head? = some ':'
    · rw [if_pos hc] at h
      exact absurd h (by simp)
    · rw [if_neg hc] at h
      simp only [takeUntilDoubleColon]
      rw [if_neg hc, ih h]

/-- Helper: a list containing the archive delimiter splits as its truncation,
the delimiter, and a remainder. -/
theorem takeUntil_splits (l : List Char) (h : containsDoubleColon l = true) :
    ∃ rest, l = takeUntilDoubleColon l ++ ':' :: ':' :: rest := by
  induction l with
  | nil => simp [containsDoubleColon] at h
  | cons d ds ih =>
    simp only [containsDoubleColon] at h
    by_cases hc : d = ':' ∧ ds.head? = some ':'
    · obtain ⟨h1, h2⟩ := hc
      cases ds with
      | nil => simp at h2
      | cons e es =>
        simp only [List.head?_cons, Option.some.injEq] at h2
        refine ⟨es, ?_⟩
        have ht2 : takeUntilDoubleColon (d :: e :: es) = [] := by
          simp only [takeUntilDoubleColon]
          rw [if_pos ⟨h1, by simp [h2]⟩]
        rw [ht2]
        simp [h1, h2]
    · rw [if_neg hc] at h
      obtain ⟨rest, hr⟩ := ih h
      refine ⟨rest, ?_⟩
      simp only [takeUntilDoubleColon]
      rw [if_neg hc, List.cons_append, ← hr]

/-- C5: for every local repository whose path contains the archive delimiter,
the probe truncates the path at the first delimiter before querying — the
volume-statistics call is made on exactly the delimiter-free truncated base,
the probe behaves as if probing the base path, the original path is the base
followed by the delimiter and a remainder, and on the unit test's path the
queried base is exactly "/backup/repo". -/
theorem probe_local_archive (env : Env) (repo : Repository)
    (ht : repo.repository_type = "local")
    (hp : hasArchiveDelimiter repo.path = true) :
    (get_filesystem_usage env repo).2 =
      [CallEvent.diskUsage (normalizePath repo.path)] ∧
    get_filesystem_usage env repo =
      get_filesystem_usage env
        (Repository.mk (normalizePath repo.path) "local" repo.host repo.port
          repo.username repo.ssh_key_id) ∧
    (∃ rest : List Char,
      repo.path.toList =
        (normalizePath repo.path).toList ++ ':' :: ':' :: rest) ∧
    hasArchiveDelimiter (normalizePath repo.path) = false ∧
    normalizePath "/backup/repo::archive-name" = "/backup/repo" := by
  have hnn : normalizePath (normalizePath repo.path) =
      normalizePath repo.path := by
    unfold normalizePath
    have he : (String.mk (takeUntilDoubleColon repo.path.toList)).toList =
        takeUntilDoubleColon repo.path.toList := rfl
    rw [he, takeUntil_eq_self _ (containsDoubleColon_takeUntil _)]
  refine ⟨?_, ?_, ?_, ?_, by decide⟩
  · cases hd : env.disk_usage (normalizePath repo.path) <;>
      simp [get_filesystem_usage, ht, localUsage, hd]
  · cases hd : env.disk_usage (normalizePath repo.path) <;>
      simp [get_filesystem_usage, ht, localUsage, hnn, hd]
  · obtain ⟨rest, hr⟩ := takeUntil_splits repo.path.toList hp
    exact ⟨rest, hr⟩
  · exact containsDoubleColon_takeUntil _

/-- Witness for C5 at the archive-suffixed local descriptor of the unit
tests. -/
theorem probe_local_archive_witness :
    (get_filesystem_usage envAllFail localArchiveRepo).2 =
      [CallEvent.diskUsage (normalizePath localArchiveRepo.path)] ∧
    get_filesystem_usage envAllFail localArchiveRepo =
      get_filesystem_usage envAllFail
        (Repository.mk (normalizePath localArchiveRepo.path) "local"
          localArchiveRepo.host localArchiveRepo.port
          localArchiveRepo.username localArchiveRepo.ssh_key_id) ∧
    (∃ rest : List Char,
      localArchiveRepo.path.toList =
        (normalizePath localArchiveRepo.path).toList ++ ':' :: ':' :: rest) ∧
    hasArchiveDelimiter (normalizePath localArchiveRepo.path) = false ∧
    normalizePath "/backup/repo::archive-name" = "/backup/repo" :=
  probe_local_archive envAllFail localArchiveRepo rfl (by decide)

/-- C6: a local probe whose volume-statistics call reports total 1e12, used
4e11, free 6e11 yields those byte counts unchanged, percent 40, filesystem
label "local" and the normalized path as mount point. -/
theorem probe_local_success (env : Env) (repo : Repository)
    (ht : repo.repository_type = "local")
    (hd : env.disk_usage (normalizePath repo.path) =
      some ⟨1000000000000, 400000000000, 600000000000⟩) :
    (get_filesystem_usage env repo).1 =
      some ⟨1000000000000, 400000000000, 600000000000, 40, "local",
            normalizePath repo.path⟩ := by
  simp [get_filesystem_usage, ht, localUsage, hd]
  norm_num

/-- Witness for C6 at the local descriptor and statistics of the unit
tests. -/
theorem probe_local_success_witness :
    (get_filesystem_usage envLocalOk localRepo).1 =
      some ⟨1000000000000, 400000000000, 600000000000, 40, "local",
            normalizePath localRepo.path⟩ :=
  probe_local_success envLocalOk localRepo rfl rfl

/-- C2: a remote probe whose command succeeds with the sample `df` output
(header line, then the data line of the unit test) yields each KB field
multiplied by 1024, the parsed use-percent 42, the parsed filesystem label
and mount point. -/
theorem probe_ssh_success (env : Env) (key : String)
    (hk : env.resolveKey 1 = some key)
    (hx : env.remoteExec "test.example.com" 22 "testuser" key
        "user@host:/backup/repo" = RemoteOutcome.completed 0 dfSampleOutput) :
    (get_filesystem_usage env sshRepo).1 =
      some ⟨976762584 * 1024, 400000000 * 1024, 576762584 * 1024, 42,
            "/dev/sda1", "/backup"⟩ := by
  have hparse : parseDfOutput dfSampleOutput =
      some ⟨976762584 * 1024, 400000000 * 1024, 576762584 * 1024, 42,
            "/dev/sda1", "/backup"⟩ := by decide
  simp [get_filesystem_usage, sshRepo, sshUsage, hk, hx, hparse]

/-- Witness for C2 in a concrete environment realizing the scenario. -/
theorem probe_ssh_success_witness :
    (get_filesystem_usage envSshOk sshRepo).1 =
      some ⟨976762584 * 1024, 400000000 * 1024, 576762584 * 1024, 42,
            "/dev/sda1", "/backup"⟩ :=
  probe_ssh_success envSshOk "KEY" rfl rfl

/-- Helper: nearest rounding of `n / d` stays at or below `m` whenever
`n ≤ m * d`. -/
theorem roundHalfEven_le (n d m : Nat) (hd : 0 < d) (h : n ≤ m * d) :
    roundHalfEven n d ≤ m := by
  have hmod := Nat.div_add_mod n d
  have hrd : n % d < d := Nat.mod_lt n hd
  have hlt : n < d * (m + 1) := by
    have hd2 : d * (m + 1) = m * d + d := by ring
    rw [hd2]
    linarith
  have hq : n / d ≤ m := Nat.lt_succ_iff.mp (Nat.div_lt_of_lt_mul hlt)
  have key : 0 < n % d → n / d < m := by
    intro hr0
    rcases Nat.lt_or_ge (n / d) m with h1 | h1
    · exact h1
    · exfalso
      have he : n / d = m := le_antisymm hq h1
      have hn : d * m + n % d = n := by rw [← he]; exact hmod
      rw [Nat.mul_comm d m] at hn
      linarith
  unfold roundHalfEven
  split_ifs with h1 h2 h3
  · exact hq
  · have := key (by omega)
    omega
  · exact hq
  · have := key (by omega)
    omega

/-- C7 counterexample: the formatter renders the value 1024.00 — at input
1048575 the scaled value 1023.999, rounded to two decimals, becomes
"1024.00 KB", so the numeric portion is not below 1024.00 and the claim that
no input renders 1024.00 fails. -/
theorem format_bytes_overflow_cex :
    format_bytes 1048575 = "1024.00 KB" ∧
    numericHundredths 1048575 = 102400 ∧ unitName 1048575 = "KB" := by
  decide

/-- C7 amended: for every byte count below 1024^5 the unit suffix is one of
B, KB, MB, GB, TB and the numeric portion lies in the closed range
[0.00, 1024.00] — two-decimal rounding can reach 1024.00 exactly, as the
counterexample shows, so the range is closed rather than half-open. -/
theorem format_bytes_range_amended (b : Nat) (hb : b < 1024 ^ 5) :
    unitIndex b ≤ 4 ∧
    unitName b ∈ ["B", "KB", "MB", "GB", "TB"] ∧
    numericHundredths b ≤ 102400 ∧
    format_bytes b =
      renderHundredths (numericHundredths b) ++ " " ++ unitName b := by
  have hbound : ∀ i, b < 1024 ^ (i + 1) →
      roundHalfEven (100 * b) (1024 ^ i) ≤ 102400 := by
    intro i hi
    apply roundHalfEven_le
    · positivity
    · have h1 : 100 * b < 100 * 1024 ^ (i + 1) :=
        Nat.mul_lt_mul_of_pos_left hi (by norm_num)
      have h2 : 100 * 1024 ^ (i + 1) = 102400 * 1024 ^ i := by ring
      exact le_of_lt (h2 ▸ h1)
  by_cases h0 : b < 1024
  · have hi : unitIndex b = 0 := by unfold unitIndex; rw [if_pos h0]
    refine ⟨by omega, ?_, ?_, rfl⟩
    · simp [unitName, hi, storageUnits]
    · unfold numericHundredths; rw [hi]
      exact hbound 0 (by simpa using h0)
  · by_cases h1 : b < 1024 ^ 2
    · have hi : unitIndex b = 1 := by
        unfold unitIndex; rw [if_neg h0, if_pos h1]
      refine ⟨by omega, ?_, ?_, rfl⟩
      · simp [unitName, hi, storageUnits]
      · unfold numericHundredths; rw [hi]
        exact hbound 1 h1
    · by_cases h2 : b < 1024 ^ 3
      · have hi : unitIndex b = 2 := by
          unfold unitIndex; rw [if_neg h0, if_neg h1, if_pos h2]
        refine ⟨by omega, ?_, ?_, rfl⟩
        · simp [unitName, hi, storageUnits]
        · unfold numericHundredths; rw [hi]
          exact hbound 2 h2
      · by_cases h3 : b < 1024 ^ 4
        · have hi : unitIndex b = 3 := by
            unfold unitIndex; rw [if_neg h0, if_neg h1, if_neg h2, if_pos h3]
          refine ⟨by omega, ?_, ?_, rfl⟩
          · simp [unitName, hi, storageUnits]
          · unfold numericHundredths; rw [hi]
            exact hbound 3 h3
        · have hi : unitIndex b = 4 := by
            unfold unitIndex
            rw [if_neg h0, if_neg h1, if_neg h2, if_neg h3, if_pos hb]
          refine ⟨by omega, ?_, ?_, rfl⟩
          · simp [unitName, hi, storageUnits]
          · unfold numericHundredths; rw [hi]
            exact hbound 4 hb

/-- Witness for the amended C7 at a concrete byte count. -/
theorem format_bytes_range_amended_witness :
    unitIndex 1536 ≤ 4 ∧
    unitName 1536 ∈ ["B", "KB", "MB", "GB", "TB"] ∧
    numericHundredths 1536 ≤ 102400 ∧
    format_bytes 1536 =
      renderHundredths (numericHundredths 1536) ++ " " ++ unitName 1536 :=
  format_bytes_range_amended 1536 (by norm_num)

/-- C8: the formatter renders the scaled value with exactly two decimal
digits, a single space, then the unit suffix, and produces the six reference
values of the unit tests. -/
theorem format_bytes_rendering :
    (∀ b : Nat, ∃ q r : Nat, r < 100 ∧
      format_bytes b = toString q ++ "." ++ pad2 r ++ " " ++ unitName b) ∧
    format_bytes 0 = "0.00 B" ∧
    format_bytes 1023 = "1023.00 B" ∧
    format_bytes 1024 = "1.00 KB" ∧
    format_bytes (1024 ^ 2) = "1.00 MB" ∧
    format_bytes (1024 ^ 3) = "1.00 GB" ∧
    format_bytes (1024 ^ 4) = "1.00 TB" := by
  refine ⟨?_, by decide, by decide, by decide, by decide, by decide, by decide⟩
  intro b
  exact ⟨numericHundredths b / 100, numericHundredths b % 100,
    Nat.mod_lt _ (by norm_num), rfl⟩

/-- C4 counterexample: a single data line with no header parses successfully
(matching the repository's SSH unit test, which feeds exactly this output and
expects a result), while a parser that always discards the first line — the
claim as stated — rejects it. -/
theorem parse_header_discard_cex :
    parseDfOutput "/dev/sda1 976762584 400000000 576762584 42% /backup\n" =
      some ⟨976762584 * 1024, 400000000 * 1024, 576762584 * 1024, 42,
            "/dev/sda1", "/backup"⟩ ∧
    parseDfOutputHeaderAlways
      "/dev/sda1 976762584 400000000 576762584 42% /backup\n" = none := by
  decide

/-- C4 amended: the parser discards the first (header) line when the output
has at least two non-empty lines and treats a lone line as the data line;
it merges a data line of fewer than 6 whitespace-separated tokens with the
following line before tokenizing; and it returns absent on wrong field count
or any non-numeric field. -/
theorem parse_algorithm_amended :
    (∀ a b l more, parsedLines (a :: l :: more) = parsedLines (b :: l :: more)) ∧
    (∀ hd l l2 more, (tokens l).length < 6 →
      parsedLines (hd :: l :: l2 :: more) = tokens (l ++ " " ++ l2)) ∧
    (∀ hd l more, ¬ (tokens l).length < 6 →
      parsedLines (hd :: l :: more) = tokens l) ∧
    (∀ l, parsedLines [l] = tokens l) ∧
    (∀ out, (parsedFields out).length ≠ 6 → parseDfOutput out = none) ∧
    (∀ out fs t u a p m, parsedFields out = [fs, t, u, a, p, m] →
      parseDecimalNat t = none ∨ parseDecimalNat u = none ∨
        parseDecimalNat a = none ∨ parsePercent p = none →
      parseDfOutput out = none) := by
  refine ⟨?_, ?_, ?_, ?_, ?_, ?_⟩
  · intro a b l more
    rfl
  · intro hd l l2 more h
    simp [parsedLines, h]
  · intro hd l more h
    cases more <;> simp [parsedLines, h]
  · intro l
    rfl
  · exact parseDfOutput_wrong_arity
  · intro out fs t u a p m hf hbad
    rcases hbad with h | h | h | h
    · simp [parseDfOutput, hf, h]
    · cases h2 : parseDecimalNat t <;> simp [parseDfOutput, hf, h, h2]
    · cases h2 : parseDecimalNat t <;> cases h3 : parseDecimalNat u <;>
        simp [parseDfOutput, hf, h, h2, h3]
    · cases h2 : parseDecimalNat t <;> cases h3 : parseDecimalNat u <;>
        cases h4 : parseDecimalNat a <;>
        simp [parseDfOutput, hf, h, h2, h3, h4]

/-- Witness for the amended C4 at a concrete two-field output. -/
theorem parse_algorithm_amended_witness :
    parseDfOutput "Filesystem Size\ntoo few\n" = none :=
  parse_algorithm_amended.2.2.2.2.1 "Filesystem Size\ntoo few\n" (by decide)

/-- C9: the persistence schema added by migration 032's upgrade consists of
exactly the five columns storage_total (BIGINT), storage_used (BIGINT),
storage_available (BIGINT), storage_percent_used (REAL) and
last_storage_check (TIMESTAMP), all on the repositories table, and no
others. -/
theorem migration032_schema :
    migration032Sql.map parseAlterAddColumn =
      [some ⟨"repositories", "storage_total", "BIGINT"⟩,
       some ⟨"repositories", "storage_used", "BIGINT"⟩,
       some ⟨"repositories", "storage_available", "BIGINT"⟩,
       some ⟨"repositories", "storage_percent_used", "REAL"⟩,
       some ⟨"repositories", "last_storage_check", "TIMESTAMP"⟩] ∧
    migration032Statements.map (fun s => (s.column, s.colType)) =
      [("storage_total", "BIGINT"), ("storage_used", "BIGINT"),
       ("storage_available", "BIGINT"), ("storage_percent_used", "REAL"),
       ("last_storage_check", "TIMESTAMP")] ∧
    (migration032Statements.all fun s => s.table == "repositories") = true ∧
    migration032Statements.length = 5 := by
  decide

/-- Helper: a successful statement run leaves the committed schema untouched
and appends the statements, in order, to the open transaction; moreover every
statement ran without raising. -/
theorem runStmts_ok (oracle : SqlAlter → Bool) :
    ∀ (l : List SqlAlter) (db r : Db),
      runStmts oracle l db = Except.ok r →
      r.schema = db.schema ∧ r.pending = db.pending ++ l := by
  intro l
  induction l with
  | nil =>
    intro db r h
    simp only [runStmts] at h
    cases h
    simp
  | cons s rest ih =>
    intro db r h
    simp only [runStmts, execStmt] at h
    by_cases ho : oracle s
    · rw [if_pos ho] at h
      exact absurd h (by simp)
    · rw [if_neg ho] at h
      obtain ⟨h1, h2⟩ := ih _ _ h
      refine ⟨h1, ?_⟩
      rw [h2]
      simp

/-- Helper: a raising statement run leaves the committed schema of the state
carried by the exception untouched. -/
theorem runStmts_error (oracle : SqlAlter → Bool) :
    ∀ (l : List SqlAlter) (db e : Db),
      runStmts oracle l db = Except.error e → e.schema = db.schema := by
  intro l
  induction l with
  | nil =>
    intro db e h
    exact absurd h (by simp [runStmts])
  | cons s rest ih =>
    intro db e h
    simp only [runStmts, execStmt] at h
    by_cases ho : oracle s
    · rw [if_pos ho] at h
      cases h
      rfl
    · rw [if_neg ho] at h
      exact ih { db with pending := db.pending ++ [s] } e h

/-- Helper: a statement run succeeds exactly when no statement raises. -/
theorem runStmts_isOk (oracle : SqlAlter → Bool) :
    ∀ (l : List SqlAlter) (db : Db),
      (∃ r, runStmts oracle l db = Except.ok r) ↔
        l.all (fun s => !oracle s) = true := by
  intro l
  induction l with
  | nil =>
    intro db
    simp [runStmts]
  | cons s rest ih =>
    intro db
    simp only [runStmts, execStmt]
    by_cases ho : oracle s
    · rw [if_pos ho]
      simp [ho]
    · rw [if_neg ho]
      simp only [List.all_cons, ho, Bool.not_false, Bool.true_and]
      exact ih _

/-- C10: migration 032's upgrade is atomic at its boundary — it commits
exactly when every one of the five ALTER TABLE statements succeeds, in which
case the committed schema gains precisely those five columns; if any
statement raises, the transaction is rolled back, the exception is re-raised
(the `true` flag), and the committed schema is unchanged. -/
theorem migration032_atomic (oracle : SqlAlter → Bool) (db : Db)
    (hp : db.pending = []) :
    ((upgrade oracle db).2 = false →
      (upgrade oracle db).1.schema = db.schema ++ migration032Statements ∧
      (upgrade oracle db).1.pending = []) ∧
    ((upgrade oracle db).2 = true → (upgrade oracle db).1 = db) ∧
    ((upgrade oracle db).2 = false ↔
      migration032Statements.all (fun s => !oracle s) = true) := by
  cases hrun : runStmts oracle migration032Statements db with
  | ok r =>
    have hu : upgrade oracle db = (commitDb r, false) := by
      unfold upgrade
      rw [hrun]
    obtain ⟨h1, h2⟩ := runStmts_ok oracle _ db r hrun
    rw [hu]
    refine ⟨fun _ => ?_, fun h => by simp at h, ?_⟩
    · simp [commitDb, h1, h2, hp]
    · simp only [eq_self_iff_true, true_iff]
      exact (runStmts_isOk oracle _ db).mp ⟨r, hrun⟩
  | error e =>
    have hu : upgrade oracle db = (rollbackDb e, true) := by
      unfold upgrade
      rw [hrun]
    have h1 := runStmts_error oracle _ db e hrun
    rw [hu]
    refine ⟨fun h => by simp at h, fun _ => ?_, ?_⟩
    · have hdb : db = Db.mk db.schema [] := by
        cases db
        simp_all
      rw [hdb]
      simp [rollbackDb, h1]
    · constructor
      · intro h
        exact absurd h (by simp)
      · intro hall
        exfalso
        obtain ⟨r, hr⟩ := (runStmts_isOk oracle _ db).mpr hall
        rw [hrun] at hr
        exact Except.noConfusion hr

/-- Witness for C10 with the all-succeed oracle at the empty database. -/
theorem migration032_atomic_witness :
    (upgrade (fun _ => false) (Db.mk [] [])).1.schema =
      (Db.mk [] []).schema ++ migration032Statements ∧
    (upgrade (fun _ => false) (Db.mk [] [])).1.pending = [] :=
  (migration032_atomic (fun _ => false) (Db.mk [] []) rfl).1 (by decide)
